import Mathlib

/-!
# Verification of the MCP adapter / result-normalizer core of `backend/main.py`

This file shallowly embeds the tool-discovery, invocation and
result-normalization logic of `search_with_mcp`, `generate_image_with_mcp`,
`mock_search_service` and `mock_image_service` from `src/backend/main.py`
(AI_Powered_Content_and_Image_Explorer), and proves or refutes the
specification's claims about them.

Modelling conventions:
* Python values decoded from JSON are modelled by `JVal` (numbers as `Int`;
  float payloads are not exercised by any claim).
* `json.loads` is modelled as an oracle carried by the payload: a text
  payload records both the raw string and the outcome of decoding it
  (`TextPayload.ok raw v` for success, `TextPayload.err raw` for a
  `json.JSONDecodeError`).  The code only ever observes this outcome.
* A `CallToolResult` envelope is modelled by `Envelope`: its `content`
  attribute (absent / a list of content items / a single text-bearing item /
  a legacy string / some other object), the truthiness of the envelope
  object itself, and its `str()` rendering.
* The remote session (`streamablehttp_client` + `ClientSession` +
  `list_tools` + `call_tool`) is modelled by `RemoteOutcome`: either some
  exception with its `str(e)` message, or a successful interaction yielding
  the advertised tool names and the raw envelope.
* Python's process-randomized `hash()` used by `mock_image_service` is an
  explicit function parameter `pyHash`.
* `str.strip()`, `str.startswith` and `str.lower()` are modelled over the
  character lists (`pyStrip`, `pyStartsWith`, `strLower`), exact on the
  ASCII inputs the claims use.
-/

mutual
/-- A Python value obtained from `json.loads` (numbers modelled as `Int`).
Arrays and objects carry their own spine types (`JArr`, `JObj`) so that all
functions over values are plain structural recursions. -/
inductive JVal where
  | null : JVal
  | bool (b : Bool) : JVal
  | num (n : Int) : JVal
  | str (s : String) : JVal
  | arr (elts : JArr) : JVal
  | obj (fields : JObj) : JVal

/-- The element spine of a JSON array. -/
inductive JArr where
  | nil : JArr
  | cons (hd : JVal) (tl : JArr) : JArr

/-- The field spine of a JSON object. -/
inductive JObj where
  | nil : JObj
  | cons (key : String) (value : JVal) (tl : JObj) : JObj
end

deriving instance DecidableEq for JVal
deriving instance DecidableEq for JArr
deriving instance DecidableEq for JObj

/-- The elements of a JSON array, as a `List`. -/
def JArr.toList : JArr → List JVal
  | .nil => []
  | .cons v t => v :: t.toList

/-- Build a JSON array from a list of values. -/
def JArr.ofList : List JVal → JArr
  | [] => .nil
  | v :: t => .cons v (JArr.ofList t)

/-- Build a JSON object from a list of key-value pairs. -/
def JObj.ofList : List (String × JVal) → JObj
  | [] => .nil
  | kv :: t => .cons kv.1 kv.2 (JObj.ofList t)

/-- Is the object empty? -/
def JObj.isEmpty : JObj → Bool
  | .nil => true
  | .cons _ _ _ => false

/-- `d.get(k)` on a decoded JSON object (Python dict): `none` is Python
`None`.  JSON objects have unique keys, so first-match lookup is exact. -/
def JObj.get? : JObj → String → Option JVal
  | .nil, _ => none
  | .cons key value t, k => if key = k then some value else t.get? k

/-- Python truthiness of a decoded JSON value (`bool(v)`). -/
def pyTruthy : JVal → Bool
  | .null => false
  | .bool b => b
  | .num n => n != 0
  | .str s => !s.isEmpty
  | .arr .nil => false
  | .arr (.cons _ _) => true
  | .obj f => !f.isEmpty

mutual
/-- `repr(v)` of a decoded JSON value (as used inside Python container
renderings).  String escaping inside `repr` is elided (no claim
exercises it). -/
def pyRepr : JVal → String
  | .null => "None"
  | .bool true => "True"
  | .bool false => "False"
  | .num n => toString n
  | .str s => "'" ++ s ++ "'"
  | .arr l => "[" ++ String.intercalate ", " (pyReprArr l) ++ "]"
  | .obj f => "\x7b" ++ String.intercalate ", " (pyReprObj f) ++ "\x7d"

/-- `repr` of each element of an array. -/
def pyReprArr : JArr → List String
  | .nil => []
  | .cons v t => pyRepr v :: pyReprArr t

/-- `repr` of each field of an object. -/
def pyReprObj : JObj → List String
  | .nil => []
  | .cons k v t => ("'" ++ k ++ "': " ++ pyRepr v) :: pyReprObj t
end

/-- `str(v)` of a decoded JSON value: identity on strings, `repr`-like
otherwise (mirrors CPython's `str` on values coming out of `json.loads`). -/
def pyStr : JVal → String
  | .str s => s
  | v => pyRepr v

/-- The Python type name of a decoded JSON value, as it appears in an
`AttributeError` message. -/
def pyTypeName : JVal → String
  | .null => "NoneType"
  | .bool _ => "bool"
  | .num _ => "int"
  | .str _ => "str"
  | .arr _ => "list"
  | .obj _ => "dict"

/-- Field lookup on a `JVal` that is expected to be an object. -/
def jGetV : JVal → String → Option JVal
  | .obj f, k => f.get? k
  | _, _ => none

/-- Python `a or b` where `a` came from `dict.get` (`none` = `None`):
a truthy value short-circuits, otherwise the right operand is returned. -/
def pyOr (a b : Option JVal) : Option JVal :=
  match a with
  | some v => if pyTruthy v then some v else b
  | none => b

/-- The `text` attribute of a content item together with the outcome of
`json.loads` on it. -/
inductive TextPayload where
  | ok (raw : String) (v : JVal) : TextPayload
  | err (raw : String) : TextPayload

/-- The raw text of a payload. -/
def TextPayload.raw : TextPayload → String
  | .ok r _ => r
  | .err r => r

/-- One element of a content list (or the single content object): it either
carries a `text` attribute or not; `repr` is its `str()` rendering. -/
structure ContentItem where
  text : Option TextPayload
  repr : String

/-- The `content` attribute of a `CallToolResult`, split the way the code's
`isinstance` / `hasattr` chain splits it (the cases are disjoint in Python:
a list has no `text` attribute and is not a `str`, etc.).  Objects that are
neither lists, text-bearing items nor strings are modelled truthy (they
define no `__bool__`). -/
inductive RContent where
  | list (items : List ContentItem) : RContent
  | item (it : ContentItem) : RContent
  | pystr (t : TextPayload) : RContent
  | other (repr : String) : RContent

/-- Truthiness of the `content` attribute (`result.content` in boolean
position): empty lists and empty strings are falsy. -/
def contentTruthy : RContent → Bool
  | .list items => !items.isEmpty
  | .item _ => true
  | .pystr t => !t.raw.isEmpty
  | .other _ => true

/-- The raw result envelope: its `content` attribute (`none` when absent or
`None`), the truthiness of the envelope object itself, and its `str()`. -/
structure Envelope where
  content : Option RContent
  truthy : Bool
  repr : String

/-- The remote side of one request: either an exception somewhere in
session setup / `list_tools` / `call_tool` (with its `str(e)`), or a
successful interaction yielding the advertised tool names and the raw
result envelope. -/
inductive RemoteOutcome where
  | exn (msg : String) : RemoteOutcome
  | ok (tools : List String) (env : Envelope) : RemoteOutcome

/-- Python `s.strip()`: whitespace removed at both ends (modelled with
`Char.isWhitespace`, exact on the ASCII inputs the claims use). -/
def pyStrip (s : String) : String :=
  ⟨((s.data.dropWhile Char.isWhitespace).reverse.dropWhile Char.isWhitespace).reverse⟩

/-- Python `s.startswith(pre)`. -/
def pyStartsWith (s pre : String) : Bool :=
  pre.data.isPrefixOf s.data

/-- Python `s.lower()` (per-character lowercasing, exact on ASCII). -/
def strLower (s : String) : String :=
  ⟨s.data.map Char.toLower⟩

/-- Substring containment on character lists (Python's `in` on strings). -/
def listContainsSub (p : List Char) : List Char → Bool
  | [] => p.isEmpty
  | c :: t => p.isPrefixOf (c :: t) || listContainsSub p t

/-- Python `pat in s` for strings. -/
def strContains (s pat : String) : Bool :=
  listContainsSub pat.data s.data

/-- Does a tool name match the keyword heuristic: some keyword is a
substring of the lowercased name?  (`'search' in tool.name.lower()`,
`any(keyword in tool.name.lower() for keyword in [...])`.) -/
def toolMatches (kws : List String) (name : String) : Bool :=
  kws.any (fun k => strContains (strLower name) k)

/-- `next((tool for tool in tools_result.tools if <match>), None)`:
the first advertised tool whose lowercased name contains any keyword
(main.py lines 363-366 with keywords `["search"]`, lines 508-512 with
keywords `["generate", "image", "flux"]`). -/
def selectTool (tools : List String) (kws : List String) : Option String :=
  tools.find? (toolMatches kws)

/-- The record template `{"title": f"Search result for '{query}'",
"content": s, "source": "DuckDuckGo"}` (main.py lines 393-397 etc.). -/
def wrapRecord (query s : String) : JVal :=
  .obj (JObj.ofList [("title", .str ("Search result for '" ++ query ++ "'")),
        ("content", .str s),
        ("source", .str "DuckDuckGo")])

/-- The `"No results found"` sentinel returned when the coerced result list
came out empty (main.py lines 476-480). -/
def noResultsRecord (query : String) : JVal :=
  .obj (JObj.ofList [("title", .str ("No results found for '" ++ query ++ "'")),
        ("content", .str "No search results available"),
        ("source", .str "DuckDuckGo")])

/-- Per-item processing in the list branch (main.py lines 382-411): decode
the item's text if present; a mapping is kept, a sequence is flattened one
level, anything else (scalar, undecodable text, text-less item) is wrapped
with the template. -/
def processItem (query : String) (it : ContentItem) : List JVal :=
  match it.text with
  | some (.ok _raw v) =>
      match v with
      | .obj f => [.obj f]
      | .arr xs => xs.toList
      | v => [wrapRecord query (pyStr v)]
  | some (.err raw) => [wrapRecord query raw]
  | none => [wrapRecord query it.repr]

/-- Processing of a single text payload (main.py lines 415-433 for a single
content item, lines 437-454 for legacy string content — the two branches
are syntactically identical up to the source of the text). -/
def processSingle (query : String) (t : TextPayload) : List JVal :=
  match t with
  | .ok _raw v =>
      match v with
      | .arr xs => xs.toList
      | .obj f => [.obj f]
      | v => [wrapRecord query (pyStr v)]
  | .err raw => [wrapRecord query raw]

/-- The final coercion loop body (main.py lines 466-474): dictionaries pass
through unchanged, anything else is stringified and wrapped. -/
def coerceRecord (query : String) : JVal → JVal
  | .obj f => .obj f
  | v => wrapRecord query (pyStr v)

/-- The `"Search completed"` record returned when the envelope has no
(truthy) content (main.py lines 483-487): its `content` field is
`str(result) if result else "No results available"`. -/
def noContentResult (query : String) (env : Envelope) : List JVal :=
  [.obj (JObj.ofList [("title", .str ("Search completed for '" ++ query ++ "'")),
         ("content", .str (if env.truthy then env.repr else "No results available")),
         ("source", .str "DuckDuckGo")])]

/-- Search result normalization (main.py lines 377-487): the body of
`search_with_mcp` from `call_tool`'s envelope to the returned record list. -/
def normalizeSearch (query : String) (maxResults : Nat) (env : Envelope) :
    List JVal :=
  match env.content with
  | some c =>
      if contentTruthy c then
        let searchResults : List JVal :=
          match c with
          | .list items => (items.map (processItem query)).flatten
          | .item it =>
              match it.text with
              | some t => processSingle query t
              | none => [wrapRecord query it.repr]
          | .pystr t => processSingle query t
          | .other r => [wrapRecord query r]
        let finalResults := (searchResults.take maxResults).map (coerceRecord query)
        if finalResults.isEmpty then [noResultsRecord query] else finalResults
      else noContentResult query env
  | none => noContentResult query env

/-- `search_with_mcp(query, max_results)` (main.py lines 354-491).  The
function does NOT test `MCP_AVAILABLE`: when the import failed, evaluating
`streamablehttp_client(...)` at line 358 raises
`NameError("name 'streamablehttp_client' is not defined")`, which the
blanket `except Exception` at line 489 converts into an error record. -/
def search_with_mcp (mcpAvailable : Bool) (remote : RemoteOutcome)
    (query : String) (maxResults : Nat) : List JVal :=
  if !mcpAvailable then
    [.obj (JObj.ofList [("error", .str
      "Search service unavailable: name 'streamablehttp_client' is not defined")])]
  else
    match remote with
    | .exn msg =>
        [.obj (JObj.ofList [("error", .str ("Search service unavailable: " ++ msg))])]
    | .ok tools env =>
        match selectTool tools ["search"] with
        | none => [.obj (JObj.ofList [("error", .str "Search service temporarily unavailable")])]
        | some _ => normalizeSearch query maxResults env

/-- `mock_search_service(query, max_results)` (main.py lines 581-591). -/
def mock_search_service (query : String) (maxResults : Nat) : List JVal :=
  (List.range (min maxResults 5)).map (fun i =>
    .obj (JObj.ofList [("title", .str ("Search Result " ++ toString (i + 1) ++ " for '" ++ query ++ "'")),
          ("snippet", .str ("Mock search result snippet for query: " ++ query ++
            ". Result number " ++ toString (i + 1) ++ ".")),
          ("url", .str ("https://example.com/result-" ++ toString (i + 1))),
          ("source", .str "Mock Search Engine")]))

/-- `mock_image_service(prompt, **kwargs)` (main.py lines 593-600).  Python's
process-randomized string `hash` is the explicit parameter `pyHash`. -/
def mock_image_service (pyHash : String → Nat) (prompt : String)
    (width height : Nat) : JVal :=
  .obj (JObj.ofList [
    ("image_url", .str ("https://picsum.photos/" ++ toString width ++ "/" ++
      toString height ++ "?random=" ++ toString (pyHash prompt % 1000))),
    ("image_data", .str "data:image/png;base64,iVBORw0KGgoAAAANSUhEUgAAAAEAAAABCAYAAAAfFcSJAAAADUlEQVR42mP8/5+hHgAHggJ/PchI7wAAAABJRU5ErkJggg=="),
    ("status", .str "success"),
    ("prompt_used", .str prompt)])

/-- Python `None` becomes JSON `null` when the result dict is serialized;
an absent optional field is rendered as `.null`. -/
def optJ : Option JVal → JVal
  | none => .null
  | some v => v

/-- The success-shaped return value of `generate_image_with_mcp`
(main.py lines 568-573). -/
def imgSuccess (prompt : String) (imageUrl imageData : Option JVal) : JVal :=
  .obj (JObj.ofList [
    ("image_data", optJ imageData),
    ("image_url", optJ imageUrl),
    ("status", .str "success"),
    ("prompt_used", .str prompt)])

/-- Extraction of `(image_url, image_data)` from the raw envelope
(main.py lines 530-566).  When the decoded JSON is not a dict,
`parsed_data.get(...)` raises an `AttributeError` (not caught by the inner
`except json.JSONDecodeError`), modelled as the `.error` case; on decode
failure the raw text is stripped and pattern-matched (lines 553-560). -/
def imageExtract (env : Envelope) : Except String (Option JVal × Option JVal) :=
  match env.content with
  | some c =>
      if contentTruthy c then
        match c with
        | .list (first :: _) =>
            match first.text with
            | some (.ok _raw v) =>
                match v with
                | .obj f =>
                    .ok (pyOr (f.get? "imageUrl")
                           (pyOr (f.get? "image_url") (f.get? "url")),
                         pyOr (f.get? "imageData")
                           (pyOr (f.get? "image_data")
                             (pyOr (f.get? "data") (f.get? "base64"))))
                | v => .error ("'" ++ pyTypeName v ++ "' object has no attribute 'get'")
            | some (.err raw) =>
                let t := pyStrip raw
                if pyStartsWith t "http" then .ok (some (.str t), none)
                else if pyStartsWith t "data:image/" then .ok (none, some (.str t))
                else .ok (none, none)
            | none => .ok (none, none)
        | _ => .ok (none, none)
      else .ok (none, none)
  | none => .ok (none, none)

/-- The image normalization step of `generate_image_with_mcp`
(main.py lines 530-577): extraction feeding the success-shaped dict, with
an in-adapter exception converted by the outer `except Exception`. -/
def imageNormalize (prompt : String) (env : Envelope) : JVal :=
  match imageExtract env with
  | .error msg =>
      .obj (JObj.ofList [("error", .str ("Image generation service unavailable: " ++ msg))])
  | .ok (iu, idata) => imgSuccess prompt iu idata

/-- `generate_image_with_mcp(prompt, **kwargs)` (main.py lines 494-577).
Unlike the search path, it checks `MCP_AVAILABLE` first (line 496) and
delegates to `mock_image_service`.  `width`/`height`/`steps` only feed the
invocation parameters (lines 518-525) and the mock; `steps` never affects
the returned value, so it is not a parameter of the model. -/
def generate_image_with_mcp (pyHash : String → Nat) (mcpAvailable : Bool)
    (remote : RemoteOutcome) (prompt : String) (width height : Nat) : JVal :=
  if !mcpAvailable then mock_image_service pyHash prompt width height
  else
    match remote with
    | .exn msg =>
        .obj (JObj.ofList [("error", .str ("Image generation service unavailable: " ++ msg))])
    | .ok tools env =>
        match selectTool tools ["generate", "image", "flux"] with
        | none =>
            .obj (JObj.ofList [("error", .str "Image generation service temporarily unavailable")])
        | some _ => imageNormalize prompt env

/-- An envelope whose content is a list holding one text-bearing item. -/
def envList1 (t : TextPayload) : Envelope :=
  ⟨some (.list [⟨some t, "item"⟩]), true, "result"⟩

/-- An envelope whose content is a single text-bearing item (not a list). -/
def envSingle (t : TextPayload) : Envelope :=
  ⟨some (.item ⟨some t, "item"⟩), true, "result"⟩

/-! ## Helper lemmas -/

/-- Flattening a list of singletons is mapping. -/
theorem flatten_map_singleton {α β : Type} (f : α → β) (l : List α) :
    (l.map (fun x => [f x])).flatten = l.map f := by
  induction l with
  | nil => rfl
  | cons a t ih => simp [ih]

/-! ## Claims -/

/-- Claim C8: tool selection returns the first tool, in provider-returned
order, whose lowercased name contains any keyword of the supplied set
(`{"search"}` for search, `{"generate","image","flux"}` for image
generation), and signals NotFound (`none`) when no tool name matches; in
particular `["web.search.v2", "image.gen"]` with `{"search"}` selects
`"web.search.v2"` and with `{"translate"}` selects nothing. -/
theorem selectTool_first_match :
    (∀ (tools kws : List String) (t : String),
      selectTool tools kws = some t ↔
        (toolMatches kws t = true ∧ ∃ pre post, tools = pre ++ t :: post ∧
          ∀ u ∈ pre, toolMatches kws u = false))
    ∧ (∀ (tools kws : List String),
        selectTool tools kws = none ↔ ∀ t ∈ tools, toolMatches kws t = false)
    ∧ selectTool ["web.search.v2", "image.gen"] ["search"] = some "web.search.v2"
    ∧ selectTool ["web.search.v2", "image.gen"] ["translate"] = none := by
  refine ⟨?_, ?_, by decide, by decide⟩
  · intro tools kws t
    unfold selectTool
    rw [List.find?_eq_some]
    constructor
    · rintro ⟨hp, pre, post, rfl, hall⟩
      exact ⟨hp, pre, post, rfl, fun u hu => by simpa using hall u hu⟩
    · rintro ⟨hp, pre, post, rfl, hall⟩
      exact ⟨hp, pre, post, rfl, fun u hu => by simpa using hall u hu⟩
  · intro tools kws
    unfold selectTool
    rw [List.find?_eq_none]
    constructor
    · intro h t ht
      simpa using h t ht
    · intro h t ht
      simpa using h t ht

/-- Claim C4: every remote-provider failure during search or image
generation (session establishment failure, invocation failure, any
exception raised inside the adapter — here the `AttributeError` from
calling `.get` on a decoded non-dict) is converted into an in-band
`{error: message}` result; the operations, being total functions of the
outcome, never raise. -/
theorem adapter_failures_are_inband (msg query prompt : String) (n w h : Nat)
    (ph : String → Nat) :
    search_with_mcp true (.exn msg) query n
      = [.obj (JObj.ofList [("error", .str ("Search service unavailable: " ++ msg))])]
    ∧ generate_image_with_mcp ph true (.exn msg) prompt w h
      = .obj (JObj.ofList [("error", .str ("Image generation service unavailable: " ++ msg))])
    ∧ generate_image_with_mcp ph true
        (.ok ["flux-schnell"] (envList1 (.ok "[1]" (.arr (JArr.ofList [.num 1]))))) prompt w h
      = .obj (JObj.ofList [("error", .str
          "Image generation service unavailable: 'list' object has no attribute 'get'")]) :=
  ⟨rfl, rfl, rfl⟩

/-- Claim C2 (code bug): with the MCP dependency absent at process start,
image generation does fall back to `mock_image_service`, but search does
not: `search_with_mcp` never consults `MCP_AVAILABLE`, so the unbound name
`streamablehttp_client` raises a `NameError` that the blanket handler
converts into an error record — `mock_search_service` is never called. -/
theorem mcp_absent_search_skips_mock (remote : RemoteOutcome)
    (ph : String → Nat) (w h : Nat) :
    search_with_mcp false remote "cats" 10
      = [.obj (JObj.ofList [("error", .str
          "Search service unavailable: name 'streamablehttp_client' is not defined")])]
    ∧ generate_image_with_mcp ph false remote "a cat" w h
      = mock_image_service ph "a cat" w h
    ∧ (mock_search_service "cats" 10).length = 5
    ∧ search_with_mcp false remote "cats" 10 ≠ mock_search_service "cats" 10 := by
  have h1 : search_with_mcp false remote "cats" 10
      = [.obj (JObj.ofList [("error", .str
          "Search service unavailable: name 'streamablehttp_client' is not defined")])] := rfl
  refine ⟨h1, rfl, by decide, fun hc => ?_⟩
  rw [h1] at hc
  exact absurd hc (by decide)

/-- Claim C3 counterexample: when no advertised tool name matches the image
keywords, `generate_image_with_mcp` returns the in-band error record, not
the fallback provider's placeholder: the result has no `status` field at
all and differs from `mock_image_service`'s success record. -/
theorem image_toolnotfound_returns_error_not_mock :
    generate_image_with_mcp (fun _ => 0) true
        (.ok ["translate.tool"] (envList1 (.err "x"))) "cat" 512 512
      = .obj (JObj.ofList [("error", .str "Image generation service temporarily unavailable")])
    ∧ jGetV (generate_image_with_mcp (fun _ => 0) true
        (.ok ["translate.tool"] (envList1 (.err "x"))) "cat" 512 512) "status" = none
    ∧ generate_image_with_mcp (fun _ => 0) true
        (.ok ["translate.tool"] (envList1 (.err "x"))) "cat" 512 512
      ≠ mock_image_service (fun _ => 0) "cat" 512 512
    ∧ jGetV (mock_image_service (fun _ => 0) "cat" 512 512) "status"
      = some (.str "success") := by
  refine ⟨rfl, rfl, fun hc => absurd hc (by decide), by decide⟩

/-- Claim C3 (amended): when tool selection signals NotFound for image
generation, the operation returns the in-band error record
`{error: "Image generation service temporarily unavailable"}`; the
fallback provider is not invoked on this path. -/
theorem image_toolnotfound_inband_error (ph : String → Nat)
    (tools : List String) (env : Envelope) (prompt : String) (w h : Nat)
    (hsel : selectTool tools ["generate", "image", "flux"] = none) :
    generate_image_with_mcp ph true (.ok tools env) prompt w h
      = .obj (JObj.ofList [("error", .str
          "Image generation service temporarily unavailable")]) := by
  simp [generate_image_with_mcp, hsel]

/-- Witness for C3's amended theorem at a concrete non-matching catalog. -/
theorem image_toolnotfound_inband_error_witness :
    generate_image_with_mcp (fun _ => 7) true
        (.ok ["translator", "speech.to.text"] (envSingle (.err "y"))) "dog" 256 256
      = .obj (JObj.ofList [("error", .str
          "Image generation service temporarily unavailable")]) :=
  image_toolnotfound_inband_error (fun _ => 7) ["translator", "speech.to.text"]
    (envSingle (.err "y")) "dog" 256 256 (by decide)

/-- Nonempty lists survive `take n` (`1 ≤ n`) followed by `map`. -/
theorem take_map_not_empty {α β : Type} (l : List α) (n : Nat) (f : α → β)
    (hl : l ≠ []) (hn : 1 ≤ n) : ((l.take n).map f).isEmpty = false := by
  cases l with
  | nil => exact absurd rfl hl
  | cons a t =>
      cases n with
      | zero => omega
      | succ m => simp

/-- Claim C1 counterexample: for the envelope whose single text item decodes
to the empty array and `max_results = 5`, normalization returns one sentinel
record, not `min(0, 5) = 0` records. -/
theorem search_empty_array_sentinel_cex :
    normalizeSearch "q" 5 (envSingle (.ok "[]" (.arr .nil))) = [noResultsRecord "q"]
    ∧ (normalizeSearch "q" 5 (envSingle (.ok "[]" (.arr .nil)))).length
      ≠ min (JArr.nil.toList.length) 5 := by decide

/-- Claim C1 (amended): for `max_results` in [1,50] and a single text item
decoding to a NONEMPTY array, normalization returns exactly
`min(len(array), max_results)` records, the truncated array in original
order with each non-mapping element wrapped by the template; an empty array
instead yields the single "No results found" sentinel. -/
theorem search_array_truncation (query raw : String) (maxResults : Nat)
    (xs : JArr) (h1 : 1 ≤ maxResults) (h2 : maxResults ≤ 50)
    (h3 : xs.toList ≠ []) :
    normalizeSearch query maxResults (envSingle (.ok raw (.arr xs)))
      = (xs.toList.take maxResults).map (coerceRecord query)
    ∧ (normalizeSearch query maxResults (envSingle (.ok raw (.arr xs)))).length
      = min xs.toList.length maxResults
    ∧ normalizeSearch query maxResults (envSingle (.ok raw (.arr .nil)))
      = [noResultsRecord query] := by
  have hne := take_map_not_empty xs.toList maxResults (coerceRecord query) h3 h1
  have hunf : normalizeSearch query maxResults (envSingle (.ok raw (.arr xs)))
      = if ((xs.toList.take maxResults).map (coerceRecord query)).isEmpty
        then [noResultsRecord query]
        else (xs.toList.take maxResults).map (coerceRecord query) := rfl
  have hmain : normalizeSearch query maxResults (envSingle (.ok raw (.arr xs)))
      = (xs.toList.take maxResults).map (coerceRecord query) := by
    rw [hunf, hne]
    rfl
  have hempty : normalizeSearch query maxResults (envSingle (.ok raw (.arr .nil)))
      = [noResultsRecord query] := by
    cases maxResults with
    | zero => rfl
    | succ m => rfl
  refine ⟨hmain, ?_, hempty⟩
  rw [hmain]
  simp [Nat.min_comm]

/-- Witness for C1's amended theorem: a three-element array truncated to
`max_results = 2` in original order. -/
theorem search_array_truncation_witness :
    normalizeSearch "q" 2 (envSingle (.ok "r" (.arr (JArr.ofList
        [.obj (JObj.ofList [("a", .num 1)]), .obj (JObj.ofList [("b", .num 2)]),
         .obj (JObj.ofList [("c", .num 3)])]))))
      = [.obj (JObj.ofList [("a", .num 1)]), .obj (JObj.ofList [("b", .num 2)])]
    ∧ (normalizeSearch "q" 2 (envSingle (.ok "r" (.arr (JArr.ofList
        [.obj (JObj.ofList [("a", .num 1)]), .obj (JObj.ofList [("b", .num 2)]),
         .obj (JObj.ofList [("c", .num 3)])]))))).length = 2 := by
  have h := search_array_truncation "q" "r" 2 (JArr.ofList
    [.obj (JObj.ofList [("a", .num 1)]), .obj (JObj.ofList [("b", .num 2)]),
     .obj (JObj.ofList [("c", .num 3)])]) (by decide) (by decide) (by decide)
  refine ⟨?_, ?_⟩
  · rw [h.1]; rfl
  · rw [h.1]; rfl

/-- Claim C6 counterexample: for an envelope with no content whose object is
truthy (as a `CallToolResult` always is), the sentinel's `content` field is
`str(result)`, not the claimed constant `"No results available"`. -/
theorem search_nocontent_sentinel_cex :
    normalizeSearch "q" 10 ⟨none, true, "meta=None content=None isError=False"⟩
      = [.obj (JObj.ofList [("title", .str "Search completed for 'q'"),
          ("content", .str "meta=None content=None isError=False"),
          ("source", .str "DuckDuckGo")])]
    ∧ normalizeSearch "q" 10 ⟨none, true, "meta=None content=None isError=False"⟩
      ≠ [.obj (JObj.ofList [("title", .str "Search completed for 'q'"),
          ("content", .str "No results available"),
          ("source", .str "DuckDuckGo")])] := by decide

/-- Claim C6 (amended): for every envelope with no (truthy) content, search
normalization returns exactly one sentinel record
`{title: "Search completed for '<query>'", content: str(envelope) if the
envelope object is truthy else "No results available", source: "DuckDuckGo"}`. -/
theorem search_nocontent_record (query : String) (maxResults : Nat)
    (env : Envelope)
    (h : env.content = none ∨ ∃ c, env.content = some c ∧ contentTruthy c = false) :
    normalizeSearch query maxResults env
      = [.obj (JObj.ofList [("title", .str ("Search completed for '" ++ query ++ "'")),
          ("content", .str (if env.truthy then env.repr else "No results available")),
          ("source", .str "DuckDuckGo")])] := by
  rcases h with h | ⟨c, hc, hct⟩
  · simp [normalizeSearch, h, noContentResult]
  · simp [normalizeSearch, hc, hct, noContentResult]

/-- Witness for C6's amended theorem: a falsy envelope (empty string
content, falsy object) yields the `"No results available"` rendering. -/
theorem search_nocontent_record_witness :
    normalizeSearch "q" 4 ⟨some (.pystr (.err "")), false, "r"⟩
      = [.obj (JObj.ofList [("title", .str "Search completed for 'q'"),
          ("content", .str "No results available"),
          ("source", .str "DuckDuckGo")])] := by
  simpa using search_nocontent_record "q" 4 ⟨some (.pystr (.err "")), false, "r"⟩
    (Or.inr ⟨.pystr (.err ""), rfl, by decide⟩)

/-- Claim C9: an envelope whose single content item carries text that is not
valid JSON normalizes to exactly one record whose `content` is the raw text
and whose `source` is the provider name (the full record is the template
`{title: "Search result for '<query>'", content: raw, source: "DuckDuckGo"}`). -/
theorem search_invalid_json_single (query raw irep erep : String) (etr : Bool)
    (maxResults : Nat) (h : 1 ≤ maxResults) :
    normalizeSearch query maxResults ⟨some (.item ⟨some (.err raw), irep⟩), etr, erep⟩
      = [wrapRecord query raw] := by
  cases maxResults with
  | zero => omega
  | succ m =>
      simp [normalizeSearch, contentTruthy, processSingle, coerceRecord, wrapRecord]

/-- Witness for C9 at a concrete undecodable payload. -/
theorem search_invalid_json_single_witness :
    normalizeSearch "rust" 10 ⟨some (.item ⟨some (.err "Found 3 results..."), "i"⟩), true, "r"⟩
      = [wrapRecord "rust" "Found 3 results..."] :=
  search_invalid_json_single "rust" "Found 3 results..." "i" "r" true 10 (by decide)

/-- Claim C10: content items whose text decodes to a mapping pass through
into the result list unchanged — no canonical fields are validated or
added; in particular a record decoding to `{"foo": 1}` is returned as-is,
with no `title`, `content` or `source` key. -/
theorem search_mapping_passthrough (query : String) (maxResults : Nat)
    (l : List (String × JObj)) (h1 : l ≠ []) (h2 : 1 ≤ maxResults) :
    normalizeSearch query maxResults
        ⟨some (.list (l.map (fun p => ⟨some (.ok p.1 (.obj p.2)), "item"⟩))), true, "r"⟩
      = (l.map (fun p => JVal.obj p.2)).take maxResults
    ∧ normalizeSearch "q" 10 (envList1 (.ok "d" (.obj (JObj.ofList [("foo", .num 1)]))))
      = [.obj (JObj.ofList [("foo", .num 1)])]
    ∧ jGetV (.obj (JObj.ofList [("foo", .num 1)])) "title" = none
    ∧ jGetV (.obj (JObj.ofList [("foo", .num 1)])) "content" = none
    ∧ jGetV (.obj (JObj.ofList [("foo", .num 1)])) "source" = none := by
  refine ⟨?_, by decide, by decide, by decide, by decide⟩
  obtain ⟨a, t, rfl⟩ : ∃ a t, l = a :: t := by
    cases l with
    | nil => exact absurd rfl h1
    | cons a t => exact ⟨a, t, rfl⟩
  have hobjs : ((a :: t).map (fun p : String × JObj =>
        (⟨some (.ok p.1 (.obj p.2)), "item"⟩ : ContentItem))).map (processItem query)
      = (a :: t).map (fun p : String × JObj => [JVal.obj p.2]) := by
    rw [List.map_map]
    rfl
  have hflat : (((a :: t).map (fun p : String × JObj =>
        (⟨some (.ok p.1 (.obj p.2)), "item"⟩ : ContentItem))).map (processItem query)).flatten
      = (a :: t).map (fun p : String × JObj => JVal.obj p.2) := by
    rw [hobjs, flatten_map_singleton]
  have hunf : normalizeSearch query maxResults
        ⟨some (.list ((a :: t).map (fun p => ⟨some (.ok p.1 (.obj p.2)), "item"⟩))), true, "r"⟩
      = (if (((((a :: t).map (fun p : String × JObj =>
            (⟨some (.ok p.1 (.obj p.2)), "item"⟩ : ContentItem))).map
              (processItem query)).flatten.take maxResults).map (coerceRecord query)).isEmpty
         then [noResultsRecord query]
         else ((((a :: t).map (fun p : String × JObj =>
            (⟨some (.ok p.1 (.obj p.2)), "item"⟩ : ContentItem))).map
              (processItem query)).flatten.take maxResults).map (coerceRecord query)) := rfl
  have hcoerce : ((((a :: t).map (fun p : String × JObj => JVal.obj p.2)).take
        maxResults).map (coerceRecord query))
      = ((a :: t).map (fun p : String × JObj => JVal.obj p.2)).take maxResults := by
    rw [← List.map_take, List.map_map]
    rfl
  have hne : (((((a :: t).map (fun p : String × JObj => JVal.obj p.2)).take
        maxResults).map (coerceRecord query))).isEmpty = false :=
    take_map_not_empty _ maxResults _ (by simp) h2
  rw [hunf, hflat, hne]
  simp only [Bool.false_eq_true, if_false]
  exact hcoerce

/-- Witness for C10's pass-through theorem: two mappings, `max_results = 5`. -/
theorem search_mapping_passthrough_witness :
    normalizeSearch "w" 5 ⟨some (.list ([("ra", JObj.ofList [("x", .num 1)]),
        ("rb", JObj.ofList [("y", .num 2)])].map
          (fun p => ⟨some (.ok p.1 (.obj p.2)), "item"⟩))), true, "r"⟩
      = [.obj (JObj.ofList [("x", .num 1)]), .obj (JObj.ofList [("y", .num 2)])] := by
  have h := (search_mapping_passthrough "w" 5
    [("ra", JObj.ofList [("x", .num 1)]), ("rb", JObj.ofList [("y", .num 2)])]
    (by decide) (by decide)).1
  rw [h]
  rfl

/-- Claim C5 counterexample: extraction uses Python `or`-chaining, so a key
that is PRESENT with a falsy value does not win: `{"imageUrl": ""}` yields
an unset (`null`) `image_url`, not `""`, and in `{"imageUrl": "",
"url": "u"}` the later key `url` wins over the present first key. -/
theorem image_url_falsy_key_cex :
    jGetV (imageNormalize "p" (envList1 (.ok "d"
        (.obj (JObj.ofList [("imageUrl", .str "")]))))) "image_url" = some .null
    ∧ some JVal.null ≠ some (JVal.str "")
    ∧ jGetV (imageNormalize "p" (envList1 (.ok "d"
        (.obj (JObj.ofList [("imageUrl", .str ""), ("url", .str "u")]))))) "image_url"
      = some (.str "u") := by decide

/-- Claim C5 (amended): `imageUrl` is extracted by `or`-chaining the keys
`imageUrl`, `image_url`, `url`: the first key whose value is TRUTHY wins
(present-but-falsy keys are skipped).  For any truthy value X the three
single-key mappings `{"imageUrl": X}`, `{"image_url": X}`, `{"url": X}`
all normalize to the same success record with `image_url = X`. -/
theorem image_url_variants_truthy (prompt raw : String) (X : JVal)
    (h : pyTruthy X = true) :
    imageNormalize prompt (envList1 (.ok raw (.obj (JObj.ofList [("imageUrl", X)]))))
      = imgSuccess prompt (some X) none
    ∧ imageNormalize prompt (envList1 (.ok raw (.obj (JObj.ofList [("image_url", X)]))))
      = imgSuccess prompt (some X) none
    ∧ imageNormalize prompt (envList1 (.ok raw (.obj (JObj.ofList [("url", X)]))))
      = imgSuccess prompt (some X) none := by
  refine ⟨?_, ?_, ?_⟩ <;>
    simp [imageNormalize, imageExtract, envList1, contentTruthy, JObj.get?,
      JObj.ofList, pyOr, h]

/-- Witness for C5's amended theorem at the truthy value
`"http://example.com/a.png"`. -/
theorem image_url_variants_truthy_witness :
    imageNormalize "p" (envList1 (.ok "d"
        (.obj (JObj.ofList [("imageUrl", .str "http://example.com/a.png")]))))
      = imgSuccess "p" (some (.str "http://example.com/a.png")) none
    ∧ imageNormalize "p" (envList1 (.ok "d"
        (.obj (JObj.ofList [("image_url", .str "http://example.com/a.png")]))))
      = imgSuccess "p" (some (.str "http://example.com/a.png")) none
    ∧ imageNormalize "p" (envList1 (.ok "d"
        (.obj (JObj.ofList [("url", .str "http://example.com/a.png")]))))
      = imgSuccess "p" (some (.str "http://example.com/a.png")) none :=
  image_url_variants_truthy "p" "d" (.str "http://example.com/a.png") (by decide)

/-- Claim C7 counterexample: the raw-text fallback STRIPS surrounding
whitespace before testing and assigning, so for the undecodable text
`"http://example.com/a.png "` the stored `imageUrl` is the stripped text,
not that text. -/
theorem image_rawtext_strip_cex :
    jGetV (imageNormalize "p" (envList1 (.err "http://example.com/a.png ")))
        "image_url" = some (.str "http://example.com/a.png")
    ∧ jGetV (imageNormalize "p" (envList1 (.err "http://example.com/a.png ")))
        "image_url" ≠ some (.str "http://example.com/a.png ") := by decide

/-- Claim C7 (amended): on JSON-decode failure the first item's raw text is
stripped of surrounding whitespace; if the stripped text starts with
`http` it becomes `imageUrl` (with `imageData` unset), else if it starts
with `data:image/` it becomes `imageData` (with `imageUrl` unset),
otherwise both stay unset — and the record still reports status success. -/
theorem image_rawtext_fallback (prompt raw : String) :
    imageNormalize prompt (envList1 (.err raw))
      = (if pyStartsWith (pyStrip raw) "http" then
           imgSuccess prompt (some (.str (pyStrip raw))) none
         else if pyStartsWith (pyStrip raw) "data:image/" then
           imgSuccess prompt none (some (.str (pyStrip raw)))
         else imgSuccess prompt none none)
    ∧ imageNormalize prompt (envList1 (.err "http://example.com/a.png"))
      = imgSuccess prompt (some (.str "http://example.com/a.png")) none
    ∧ imageNormalize prompt (envList1 (.err "data:image/png;base64,AAAA"))
      = imgSuccess prompt none (some (.str "data:image/png;base64,AAAA"))
    ∧ imageNormalize prompt (envList1 (.err "hello"))
      = imgSuccess prompt none none
    ∧ jGetV (imageNormalize prompt (envList1 (.err "hello"))) "status"
      = some (.str "success") := by
  refine ⟨?_, rfl, rfl, rfl, rfl⟩
  by_cases hh : pyStartsWith (pyStrip raw) "http"
  · simp [imageNormalize, imageExtract, envList1, contentTruthy, hh]
  · by_cases hd : pyStartsWith (pyStrip raw) "data:image/"
    · simp [imageNormalize, imageExtract, envList1, contentTruthy, hh, hd]
    · simp [imageNormalize, imageExtract, envList1, contentTruthy, hh, hd]
